import Mathlib

/-!
Shallow embedding of `ansiblereporter/cli.py` (bcicen/ansiblereporter).

The module provides two script classes built on `systematic.shell.Script`:
`AnsibleScript` (ad-hoc mode) and `PlaybookScript` (playbook mode), sharing
the base class `GenericAnsibleScript` whose `parse_args` is the validation
pipeline.  Pure control flow of the Python source is transcribed directly;
external effects (interactive password prompts, inventory host listing,
vault-file reading, path resolution, the engine call) are supplied through
an explicit environment record.  Python exceptions and `Script.exit` are
modelled with explicit outcome types.
-/

set_option autoImplicit false

namespace AnsibleReporter

/-- Python exception values relevant to the embedded code. -/
inductive PyErr where
  | nameError (n : String)
  | attributeError (attr : String)
  | typeError (msg : String)
  | ansibleError (msg : String)
  | runnerError (msg : String)
  | keyboardInterrupt
  deriving Repr, DecidableEq

/-- `args.vault_pass` as set by `parse_args`: the Python value `False`, or the
content read from the vault password file. -/
inductive VaultPass where
  | falseVal
  | secret (s : String)
  deriving Repr, DecidableEq

/-- Value of the `pattern` attribute: `argparse` with `nargs='*'` yields the
string default `DEFAULT_PATTERN` when no positional is given, and a list of
strings otherwise. -/
inductive PatternValue where
  | ofString (s : String)
  | ofList (l : List String)
  deriving Repr, DecidableEq

/-- The `argparse` namespace produced by flag parsing, as a record over the
union of the attributes the two schemas declare.  An `Option` around a field
type marks attribute *presence*: `none` means the attribute is not on the
namespace at all (accessing it raises `AttributeError`).  `inventory`,
`playbook` and `vault_password_file` can additionally hold the Python value
`None`, modelled by the inner `Option`.

Declared by the ad-hoc schema only: `module`, `pattern`.  Declared by the
playbook schema only: `vault_password_file`, `show_facts`, `playbook`.
`su_user` is declared by neither schema (no `add_argument` call creates it),
so it is always absent. -/
structure Namespace where
  version : Bool
  inventory : Option String
  module_path : String
  timeout : Int
  user : String
  become_user : String
  private_key : String
  forks : Int
  port : Int
  su : Bool
  become : Bool
  ask_pass : Bool
  ask_become_pass : Bool
  colors : Bool
  args : String
  module : Option String
  pattern : Option PatternValue
  vault_password_file : Option (Option String)
  show_facts : Option Bool
  playbook : Option (Option String)
  su_user : Option String
  deriving Repr, DecidableEq

/-- Result of `parse_args`: the namespace together with the attributes the
pipeline sets on it (`remote_pass`, `become_pass`, `vault_pass`) and the
script's `self.mode` string. -/
structure Parsed where
  ns : Namespace
  remote_pass : Option String
  become_pass : Option String
  vault_pass : VaultPass
  mode : String
  deriving Repr, DecidableEq

/-- Outcome of running a piece of the script: a value, a `Script.exit`
(printed messages and exit code), or a raised Python exception.  `out`
collects everything printed on the way. -/
inductive Outcome (α : Type) where
  | ok (out : List String) (val : α)
  | exited (out : List String) (code : Nat)
  | raised (out : List String) (e : PyErr)
  deriving Repr, DecidableEq

/-- Result of the engine call `runner.run()`: an opaque success payload, or a
raised Python exception. -/
inductive EngineResult where
  | result (payload : String)
  | raises (e : PyErr)
  deriving Repr, DecidableEq

/-- Configuration handed to `AnsibleRunner` by `AnsibleScript.run`
(cli.py lines 153-170), field for field. -/
structure AdHocConfig where
  host_list : String
  module_path : String
  module_name : String
  module_args : String
  forks : String
  timeout : Int
  pattern : PatternValue
  remote_user : String
  remote_pass : Option String
  remote_port : Int
  private_key_file : String
  su : Bool
  become : Bool
  become_user : String
  become_pass : Option String
  show_colors : Bool
  deriving Repr, DecidableEq

/-- Configuration handed to `PlaybookRunner` by `PlaybookScript.run`
(cli.py lines 220-246), field for field, including the hard-coded
"disabled" defaults. -/
structure PlaybookConfig where
  playbook : String
  host_list : String
  module_path : String
  forks : String
  timeout : Int
  remote_user : String
  remote_pass : Option String
  become_pass : Option String
  remote_port : Int
  transport : String
  private_key_file : String
  become : Bool
  become_user : String
  extra_vars : Option String
  only_tags : Option String
  skip_tags : Option String
  subset : Option String
  inventory : Option String
  check : Bool
  diff : Bool
  any_errors_fatal : Bool
  vault_password : VaultPass
  force_handlers : Bool
  show_colors : Bool
  show_facts : Bool
  deriving Repr, DecidableEq

/-- External collaborators of the script, supplied as functions:
`getpass.getpass` keyed by prompt, `Inventory(path).list_hosts(pattern)`,
`utils.read_vault_file`, `os.path.realpath`, and the two runner classes'
`run` methods. -/
structure Env where
  getpass : String → String
  listHosts : String → PatternValue → List String
  read_vault_file : String → String
  realpath : String → String
  adhocEngine : AdHocConfig → EngineResult
  playbookEngine : PlaybookConfig → EngineResult

/-! ### Module namespace and argument-schema construction

`AnsibleScript.__init__` and `PlaybookScript.__init__` build their argparse
schemas by calling `add_argument` with `default=` expressions that are plain
name references into the module's global namespace.  Evaluating such a name
that the module never defines raises `NameError` at construction time. -/

/-- Names bound at module level in `ansiblereporter/cli.py`: the imports of
lines 8-27 and the module-level definitions. -/
def moduleNames : List String :=
  ["os", "threading", "getpass", "Script", "Logger", "ansible_version",
   "utils", "DEFAULT_MODULE_NAME", "DEFAULT_MODULE_PATH", "DEFAULT_MODULE_ARGS",
   "DEFAULT_TIMEOUT", "DEFAULT_HOST_LIST", "DEFAULT_PRIVATE_KEY_FILE",
   "DEFAULT_FORKS", "DEFAULT_REMOTE_PORT", "DEFAULT_PATTERN",
   "DEFAULT_BECOME_USER", "active_user", "AnsibleError", "Inventory",
   "RunnerError", "ansible_reporter_version", "PlaybookRunner", "AnsibleRunner",
   "logger", "create_directory", "GenericAnsibleScript", "AnsibleScript",
   "PlaybookScript"]

/-- A `default=` expression of an `add_argument` call: a literal
(`False`/`None`/a string literal), or a reference to a module-level name. -/
inductive DefaultExpr where
  | lit
  | name (n : String)
  deriving Repr, DecidableEq

/-- One `add_argument` call: destination attribute and default expression. -/
structure ArgSpec where
  dest : String
  default : DefaultExpr
  deriving Repr, DecidableEq

/-- Evaluate a default expression in the module namespace. -/
def evalDefault : DefaultExpr → Except PyErr Unit
  | .lit => .ok ()
  | .name n => if moduleNames.contains n then .ok () else .error (.nameError n)

/-- Evaluate the `add_argument` calls of a schema in order; the first
`NameError` aborts construction.  Returns the declared destinations. -/
def evalSchema : List ArgSpec → Except PyErr (List String)
  | [] => .ok []
  | a :: rest =>
    match evalDefault a.default with
    | .error e => .error e
    | .ok _ =>
      match evalSchema rest with
      | .error e => .error e
      | .ok ds => .ok (a.dest :: ds)

/-- `GenericAnsibleScript.__init__` (line 63): the `--version` flag. -/
def generic_init_args : List ArgSpec := [⟨"version", .lit⟩]

/-- `AnsibleScript.add_common_arguments` (lines 129-142), in source order.
Line 134 uses `default=DEFAULT_become_USER`. -/
def adhoc_common_args : List ArgSpec :=
  [⟨"inventory", .name "DEFAULT_HOST_LIST"⟩,
   ⟨"module_path", .name "DEFAULT_MODULE_PATH"⟩,
   ⟨"timeout", .name "DEFAULT_TIMEOUT"⟩,
   ⟨"user", .name "active_user"⟩,
   ⟨"become_user", .name "DEFAULT_become_USER"⟩,
   ⟨"private_key", .name "DEFAULT_PRIVATE_KEY_FILE"⟩,
   ⟨"forks", .name "DEFAULT_FORKS"⟩,
   ⟨"port", .name "DEFAULT_REMOTE_PORT"⟩,
   ⟨"su", .lit⟩, ⟨"become", .lit⟩, ⟨"ask_pass", .lit⟩,
   ⟨"ask_become_pass", .lit⟩, ⟨"colors", .lit⟩]

/-- `AnsibleScript.add_default_arguments` (lines 144-147). -/
def adhoc_default_args : List ArgSpec :=
  [⟨"module", .name "DEFAULT_MODULE_NAME"⟩,
   ⟨"args", .name "DEFAULT_MODULE_ARGS"⟩,
   ⟨"pattern", .name "DEFAULT_PATTERN"⟩]

/-- `PlaybookScript.add_common_arguments` (lines 191-207), in source order.
Line 196 uses `default=DEFAULT_BECOME_USER`. -/
def playbook_common_args : List ArgSpec :=
  [⟨"inventory", .name "DEFAULT_HOST_LIST"⟩,
   ⟨"module_path", .name "DEFAULT_MODULE_PATH"⟩,
   ⟨"timeout", .name "DEFAULT_TIMEOUT"⟩,
   ⟨"user", .name "active_user"⟩,
   ⟨"become_user", .name "DEFAULT_BECOME_USER"⟩,
   ⟨"private_key", .name "DEFAULT_PRIVATE_KEY_FILE"⟩,
   ⟨"forks", .name "DEFAULT_FORKS"⟩,
   ⟨"port", .name "DEFAULT_REMOTE_PORT"⟩,
   ⟨"su", .lit⟩, ⟨"become", .lit⟩, ⟨"ask_pass", .lit⟩,
   ⟨"ask_become_pass", .lit⟩,
   ⟨"args", .name "DEFAULT_MODULE_ARGS"⟩,
   ⟨"colors", .lit⟩, ⟨"show_facts", .lit⟩,
   ⟨"vault_password_file", .lit⟩]

/-- `AnsibleScript.__init__` (lines 124-127): base init, then
`add_common_arguments`, then `add_default_arguments`. -/
def AnsibleScript_init : Except PyErr (List String) :=
  evalSchema (generic_init_args ++ adhoc_common_args ++ adhoc_default_args)

/-- `PlaybookScript.__init__` (lines 186-189): base init, then
`add_common_arguments`, then the optional `playbook` positional. -/
def PlaybookScript_init : Except PyErr (List String) :=
  evalSchema (generic_init_args ++ playbook_common_args ++ [⟨"playbook", .lit⟩])

/-! ### The validation pipeline -/

/-- Privilege-mode resolution, cli.py lines 103-106: `become` is checked
first; the `su` branch reads `args.su_user`, an attribute neither schema
declares, so taking that branch raises `AttributeError`. -/
def resolve_mode (ns : Namespace) : Except PyErr String :=
  if ns.become then .ok ("become " ++ ns.become_user ++ " ")
  else if ns.su then
    match ns.su_user with
    | some u => .ok ("su " ++ u ++ " ")
    | none => .error (.attributeError "su_user")
  else .ok ""

/-- `GenericAnsibleScript.parse_args` (cli.py lines 80-113), the shared
validation pipeline, transcribed check for check in source order:
version short-circuit; inventory-is-None check; host-pattern check guarded
by attribute presence of `pattern`; password prompts; privilege-mode
resolution; vault resolution (which dereferences
`args.vault_password_file`).  `rv`/`av` are the imported
`ansible_reporter_version` / `ansible_version` strings. -/
def parse_args (env : Env) (rv av : String) (ns : Namespace) : Outcome Parsed :=
  if ns.version then
    .exited [rv ++ " (ansible " ++ av ++ ")"] 0
  else
    match ns.inventory with
    | none => .exited ["Could not detect default inventory path"] 1
    | some inv =>
      if (match ns.pattern with
          | some pat => (env.listHosts inv pat).isEmpty
          | none => false) then
        .exited ["No hosts matched"] 1
      else
        let remote_pass : Option String :=
          if ns.ask_pass then some (env.getpass "Enter remote user password: ")
          else none
        let become_pass : Option String :=
          if ns.ask_become_pass then some (env.getpass "Enter become password: ")
          else none
        match resolve_mode ns with
        | .error e => .raised [] e
        | .ok mode =>
          match ns.vault_password_file with
          | none => .raised [] (.attributeError "vault_password_file")
          | some v =>
            let vault_pass : VaultPass :=
              match v with
              | some path =>
                if path = "" then .falseVal else .secret (env.read_vault_file path)
              | none => .falseVal
            .ok [] { ns := ns, remote_pass := remote_pass,
                     become_pass := become_pass, vault_pass := vault_pass,
                     mode := mode }

/-! ### Script state, interrupt handler, adapters -/

/-- Mutable script state relevant to cancellation: `self.runner`, set to
`None` by `GenericAnsibleScript.__init__` (line 61) and never assigned
anywhere else in cli.py. -/
structure ScriptState where
  runner : Option Unit
  deriving Repr, DecidableEq

/-- `self.runner = None` from `GenericAnsibleScript.__init__`. -/
def initialState : ScriptState := ⟨none⟩

/-- What the SIGINT handler does: `Script.exit` with a code and an optional
message, or raise `KeyboardInterrupt` into the interrupted frame. -/
inductive SigAction where
  | exitProc (code : Nat) (msg : Option String)
  | raiseKeyboardInterrupt
  deriving Repr, DecidableEq

/-- `GenericAnsibleScript.SIGINT` (cli.py lines 65-72): raise
`KeyboardInterrupt` if `self.runner is not None`, else `self.exit(1)`
(no message). -/
def SIGINT (st : ScriptState) : SigAction :=
  if st.runner.isSome then .raiseKeyboardInterrupt
  else .exitProc 1 none

/-- Trace of one `run(args)` call: the script state while the engine call is
in flight (`none` when the engine is never invoked — cli.py never assigns
`self.runner`, so when the call is made the state is the entry state),
the state after the call, and the outcome. -/
structure RunTrace where
  duringCall : Option ScriptState
  finalState : ScriptState
  outcome : Outcome String
  deriving Repr, DecidableEq

/-- The `try: return runner.run() / except AnsibleError, emsg: raise
RunnerError(emsg)` block shared by both `run` methods (cli.py lines 172-175
and 248-251): an `AnsibleError` is re-raised as `RunnerError` with the same
message; any other raised exception propagates uncaught. -/
def adapterEngineCall : EngineResult → Outcome String
  | .result r => .ok [] r
  | .raises (.ansibleError m) => .raised [] (.runnerError m)
  | .raises e => .raised [] e

/-- `AnsibleScript.run` (cli.py lines 152-175): build the `AnsibleRunner`
configuration from the parsed arguments and call the engine.  `runner` is a
local variable; `self.runner` is never assigned.  Attribute reads on the
namespace follow source order (`args.inventory` under `os.path.realpath`,
then `args.module`, `args.pattern`, ...). -/
def AnsibleScript_run (env : Env) (st : ScriptState) (p : Parsed) : RunTrace :=
  match p.ns.inventory with
  | none => ⟨none, st, .raised [] (.typeError "realpath of None")⟩
  | some inv =>
    match p.ns.module with
    | none => ⟨none, st, .raised [] (.attributeError "module")⟩
    | some module_name =>
      match p.ns.pattern with
      | none => ⟨none, st, .raised [] (.attributeError "pattern")⟩
      | some pat =>
        let cfg : AdHocConfig :=
          { host_list := env.realpath inv,
            module_path := p.ns.module_path,
            module_name := module_name,
            module_args := p.ns.args,
            forks := toString p.ns.forks,
            timeout := p.ns.timeout,
            pattern := pat,
            remote_user := p.ns.user,
            remote_pass := p.remote_pass,
            remote_port := p.ns.port,
            private_key_file := p.ns.private_key,
            su := p.ns.su,
            become := p.ns.become,
            become_user := p.ns.become_user,
            become_pass := p.become_pass,
            show_colors := p.ns.colors }
        ⟨some st, st, adapterEngineCall (env.adhocEngine cfg)⟩

/-- `PlaybookScript.run` (cli.py lines 216-251): `if not args.playbook:
self.exit(1, 'No playbook provided')` (falsy when the optional positional is
`None` or empty), then build the `PlaybookRunner` configuration with the
hard-coded disabled defaults and call the engine.  `self.runner` is never
assigned. -/
def PlaybookScript_run (env : Env) (st : ScriptState) (p : Parsed) : RunTrace :=
  match p.ns.playbook with
  | none => ⟨none, st, .raised [] (.attributeError "playbook")⟩
  | some pb =>
    if pb.getD "" = "" then
      ⟨none, st, .exited ["No playbook provided"] 1⟩
    else
      match p.ns.inventory with
      | none => ⟨none, st, .raised [] (.typeError "realpath of None")⟩
      | some inv =>
        match p.ns.show_facts with
        | none => ⟨none, st, .raised [] (.attributeError "show_facts")⟩
        | some sf =>
          let cfg : PlaybookConfig :=
            { playbook := pb.getD "",
              host_list := env.realpath inv,
              module_path := p.ns.module_path,
              forks := toString p.ns.forks,
              timeout := p.ns.timeout,
              remote_user := p.ns.user,
              remote_pass := p.remote_pass,
              become_pass := p.become_pass,
              remote_port := p.ns.port,
              transport := "smart",
              private_key_file := p.ns.private_key,
              become := p.ns.become,
              become_user := p.ns.become_user,
              extra_vars := none,
              only_tags := none,
              skip_tags := none,
              subset := none,
              inventory := none,
              check := false,
              diff := false,
              any_errors_fatal := false,
              vault_password := p.vault_pass,
              force_handlers := false,
              show_colors := p.ns.colors,
              show_facts := sf }
          ⟨some st, st, adapterEngineCall (env.playbookEngine cfg)⟩

/-! ### Spec-modelled collaborators

The runner classes (`ansiblereporter/result.py`) and the bin-script entry
points are code of this repository that is not under `src/`; they are
modelled from the spec. -/

/-- Modelled from the spec: the engine boundary of `ansiblereporter/result.py`
is not under `src/`.  Per spec section 6 the engine reports failures only as
engine-level errors carrying a human-readable message, i.e. every exception
the call `runner.run()` raises is an `AnsibleError`. -/
def engineWellBehaved {α : Type} (f : α → EngineResult) : Prop :=
  ∀ cfg e, f cfg = .raises e → ∃ m, e = .ansibleError m

/-- Modelled from the spec: `ansiblereporter/result.py` is not under `src/`.
Per spec section 4.4 a cancellation (the `KeyboardInterrupt` that
`GenericAnsibleScript.SIGINT` raises into the in-flight `runner.run()` call)
unwinds through the runner's normal error path and surfaces at the adapter
boundary as an engine-level `AnsibleError` carrying a message, the same as
any other engine failure. -/
def interruptedEngine {α : Type} (msg : String) : α → EngineResult :=
  fun _ => .raises (.ansibleError msg)

/-- Modelled from the spec: the bin-script entry points (`ScriptController`,
spec section 4.5) are not under `src/`.  The controller normalizes the final
outcome: success exits 0; a `Script.exit` keeps its code; a `RunnerError`
is printed and the process exits 1; any other uncaught exception terminates
the interpreter with exit code 1. -/
def controller_exit : Outcome String → List String × Nat
  | .ok out _ => (out, 0)
  | .exited out code => (out, code)
  | .raised out (.runnerError m) => (out ++ [m], 1)
  | .raised out _ => (out, 1)

/-- Prefix previously printed output onto an outcome. -/
def prependOut {α : Type} (out : List String) : Outcome α → Outcome α
  | .ok o v => .ok (out ++ o) v
  | .exited o c => .exited (out ++ o) c
  | .raised o e => .raised (out ++ o) e

/-- Modelled from the spec: the ad-hoc bin-script entry point is not under
`src/`.  Per spec section 4.5 it constructs the script (schema construction,
`AnsibleScript.__init__`), then calls `parse_args`, then `run`. -/
def adhocMain (env : Env) (rv av : String) (ns : Namespace) : Outcome String :=
  match AnsibleScript_init with
  | .error e => .raised [] e
  | .ok _ =>
    match parse_args env rv av ns with
    | .exited out c => .exited out c
    | .raised out e => .raised out e
    | .ok out p => prependOut out (AnsibleScript_run env initialState p).outcome

/-- Modelled from the spec: the playbook bin-script entry point is not under
`src/`.  Per spec section 4.5 it constructs the script
(`PlaybookScript.__init__`), then calls `parse_args`, then `run`. -/
def playbookMain (env : Env) (rv av : String) (ns : Namespace) : Outcome String :=
  match PlaybookScript_init with
  | .error e => .raised [] e
  | .ok _ =>
    match parse_args env rv av ns with
    | .exited out c => .exited out c
    | .raised out e => .raised out e
    | .ok out p => prependOut out (PlaybookScript_run env initialState p).outcome

/-! ### Concrete fixtures for witnesses and counterexamples -/

/-- A concrete environment: two hosts `a`, `b`; pattern `c` matches nothing;
prompts and vault reads return fixed strings; both engines succeed. -/
def envC : Env :=
  { getpass := fun _ => "pw",
    listHosts := fun _ pat =>
      match pat with
      | .ofString s => if s = "c" then [] else ["a", "b"]
      | .ofList l => if l = ["c"] then [] else ["a", "b"],
    read_vault_file := fun _ => "vault secret",
    realpath := fun s => s,
    adhocEngine := fun _ => .result "adhoc ok",
    playbookEngine := fun _ => .result "playbook ok" }

/-- A namespace of the shape the playbook schema produces, with defaults and
a playbook path given. -/
def playbookNs : Namespace :=
  { version := false, inventory := some "/etc/ansible/hosts",
    module_path := "/usr/share/ansible", timeout := 10, user := "root",
    become_user := "root", private_key := "", forks := 5, port := 22,
    su := false, become := false, ask_pass := false, ask_become_pass := false,
    colors := false, args := "", module := none, pattern := none,
    vault_password_file := some none, show_facts := some false,
    playbook := some (some "site.yml"), su_user := none }

/-- A namespace of the shape the ad-hoc schema produces, with defaults:
`module`/`pattern` present, `vault_password_file`/`show_facts`/`playbook`
absent. -/
def adhocNs : Namespace :=
  { playbookNs with
    module := some "shell"
    pattern := some (.ofString "all")
    vault_password_file := none
    show_facts := none
    playbook := none }

/-- The parse result the pipeline produces on `playbookNs`. -/
def playbookParsed : Parsed :=
  { ns := playbookNs, remote_pass := none, become_pass := none,
    vault_pass := .falseVal, mode := "" }

/-- An ad-hoc-shaped parse result (as the pipeline would have produced had
it been able to complete on an ad-hoc namespace). -/
def adhocParsed : Parsed :=
  { ns := adhocNs, remote_pass := none, become_pass := none,
    vault_pass := .falseVal, mode := "" }

/-! ### Helper lemmas -/

/-- `PlaybookScript.__init__` succeeds: every default name it references is
bound at module level. -/
theorem PlaybookScript_init_ok :
    PlaybookScript_init =
      .ok ["version", "inventory", "module_path", "timeout", "user",
           "become_user", "private_key", "forks", "port", "su", "become",
           "ask_pass", "ask_become_pass", "args", "colors", "show_facts",
           "vault_password_file", "playbook"] := rfl

/-- Inversion of a successful run of the validation pipeline: the returned
record is built exactly from the pipeline's resolution steps, and the
namespace carries the `vault_password_file` attribute. -/
theorem parse_args_ok_inv (env : Env) (rv av : String) (ns : Namespace)
    (out : List String) (p : Parsed)
    (h : parse_args env rv av ns = .ok out p) :
    out = []
    ∧ p.ns = ns
    ∧ resolve_mode ns = .ok p.mode
    ∧ p.remote_pass
        = (if ns.ask_pass then some (env.getpass "Enter remote user password: ")
           else none)
    ∧ p.become_pass
        = (if ns.ask_become_pass then some (env.getpass "Enter become password: ")
           else none)
    ∧ ∃ v, ns.vault_password_file = some v
        ∧ p.vault_pass
            = (match v with
               | some path =>
                 if path = "" then .falseVal
                 else .secret (env.read_vault_file path)
               | none => .falseVal) := by
  by_cases h1 : ns.version = true
  · simp [parse_args, h1] at h
  · rcases h2 : ns.inventory with _ | inv
    · simp [parse_args, h1, h2] at h
    · by_cases h3 : (match ns.pattern with
        | some pat => (env.listHosts inv pat).isEmpty
        | none => false) = true
      · simp [parse_args, h1, h2, h3] at h
      · rcases h4 : resolve_mode ns with e | mode
        · simp [parse_args, h1, h2, h3, h4] at h
        · rcases h5 : ns.vault_password_file with _ | v
          · simp [parse_args, h1, h2, h3, h4, h5] at h
          · simp [parse_args, h1, h2, h3, h4, h5] at h
            obtain ⟨hout, hp⟩ := h
            subst hp
            exact ⟨hout, rfl, rfl, rfl, rfl, v, rfl, rfl⟩

/-- Playbook-shaped namespace with the version flag set and inventory unset. -/
def versionNs : Namespace :=
  { playbookNs with
    version := true
    inventory := none }

/-- Playbook-shaped namespace with an unset inventory. -/
def noInventoryNs : Namespace := { playbookNs with inventory := none }

/-- Ad-hoc-shaped namespace whose pattern matches no host of `envC`. -/
def unmatchedNs : Namespace := { adhocNs with pattern := some (.ofString "c") }

/-- Playbook-shaped namespace with both privilege toggles set. -/
def bothTogglesNs : Namespace :=
  { playbookNs with
    become := true
    su := true
    become_user := "admin" }

/-- The parse result the pipeline produces on `bothTogglesNs`. -/
def bothTogglesParsed : Parsed :=
  { ns := bothTogglesNs, remote_pass := none, become_pass := none,
    vault_pass := .falseVal, mode := "become admin " }

/-- Playbook-shaped namespace with no playbook positional supplied. -/
def noPlaybookNs : Namespace := { playbookNs with playbook := some none }

/-- The parse result the pipeline produces on `noPlaybookNs`. -/
def noPlaybookParsed : Parsed :=
  { ns := noPlaybookNs, remote_pass := none, become_pass := none,
    vault_pass := .falseVal, mode := "" }

/-- Playbook-shaped namespace with neither a playbook nor an inventory. -/
def noPlaybookNoInventoryNs : Namespace :=
  { playbookNs with
    playbook := some none
    inventory := none }

/-- `envC` with both engine calls behaving as interrupted calls. -/
def envI : Env :=
  { envC with
    adhocEngine := interruptedEngine "interrupted"
    playbookEngine := interruptedEngine "interrupted" }

/-- Script state with a registered runner handle. -/
def runningState : ScriptState := ⟨some ()⟩

/-! ### Helper lemmas about the run methods -/

/-- `PlaybookScript.run` never assigns `self.runner`: the script state is
unchanged on every path, and when the engine call is in flight the state is
the entry state. -/
theorem PlaybookScript_run_state (env : Env) (st : ScriptState) (p : Parsed) :
    (PlaybookScript_run env st p).finalState = st
    ∧ ((PlaybookScript_run env st p).duringCall = none
       ∨ (PlaybookScript_run env st p).duringCall = some st) := by
  rcases h1 : p.ns.playbook with _ | pb
  · simp [PlaybookScript_run, h1]
  · by_cases h2 : pb.getD "" = ""
    · simp [PlaybookScript_run, h1, h2]
    · rcases h3 : p.ns.inventory with _ | inv
      · simp [PlaybookScript_run, h1, h2, h3]
      · rcases h4 : p.ns.show_facts with _ | sf
        · simp [PlaybookScript_run, h1, h2, h3, h4]
        · simp [PlaybookScript_run, h1, h2, h3, h4]

/-- `AnsibleScript.run` never assigns `self.runner` either. -/
theorem AnsibleScript_run_state (env : Env) (st : ScriptState) (p : Parsed) :
    (AnsibleScript_run env st p).finalState = st
    ∧ ((AnsibleScript_run env st p).duringCall = none
       ∨ (AnsibleScript_run env st p).duringCall = some st) := by
  rcases h1 : p.ns.inventory with _ | inv
  · simp [AnsibleScript_run, h1]
  · rcases h2 : p.ns.module with _ | m
    · simp [AnsibleScript_run, h1, h2]
    · rcases h3 : p.ns.pattern with _ | pat
      · simp [AnsibleScript_run, h1, h2, h3]
      · simp [AnsibleScript_run, h1, h2, h3]

/-- When `PlaybookScript.run` reaches the engine call (the in-flight state is
set), its outcome is the adapter's translation of some engine result. -/
theorem PlaybookScript_run_engine (env : Env) (st : ScriptState) (p : Parsed)
    (C : Outcome String → Prop)
    (hC : ∀ cfg, C (adapterEngineCall (env.playbookEngine cfg)))
    (h : (PlaybookScript_run env st p).duringCall.isSome = true) :
    C (PlaybookScript_run env st p).outcome := by
  rcases h1 : p.ns.playbook with _ | pb
  · simp [PlaybookScript_run, h1] at h
  · by_cases h2 : pb.getD "" = ""
    · simp [PlaybookScript_run, h1, h2] at h
    · rcases h3 : p.ns.inventory with _ | inv
      · simp [PlaybookScript_run, h1, h2, h3] at h
      · rcases h4 : p.ns.show_facts with _ | sf
        · simp [PlaybookScript_run, h1, h2, h3, h4] at h
        · simp only [PlaybookScript_run, h1, h2, h3, h4]
          simp [h2]
          exact hC _

/-- When `AnsibleScript.run` reaches the engine call, its outcome is the
adapter's translation of some engine result. -/
theorem AnsibleScript_run_engine (env : Env) (st : ScriptState) (p : Parsed)
    (C : Outcome String → Prop)
    (hC : ∀ cfg, C (adapterEngineCall (env.adhocEngine cfg)))
    (h : (AnsibleScript_run env st p).duringCall.isSome = true) :
    C (AnsibleScript_run env st p).outcome := by
  rcases h1 : p.ns.inventory with _ | inv
  · simp [AnsibleScript_run, h1] at h
  · rcases h2 : p.ns.module with _ | m
    · simp [AnsibleScript_run, h1, h2] at h
    · rcases h3 : p.ns.pattern with _ | pat
      · simp [AnsibleScript_run, h1, h2, h3] at h
      · simp only [AnsibleScript_run, h1, h2, h3]
        exact hC _

/-! ### Claims -/

/-- C1 counterexample: in playbook mode with no playbook positional and an
unset inventory, the process exits 1 with the inventory message, never
printing `No playbook provided` — the playbook-presence check does not run
before the inventory check. -/
theorem c1_counterexample :
    noPlaybookNoInventoryNs.playbook = some none
    ∧ playbookMain envC "0.5.3" "1.9.4" noPlaybookNoInventoryNs
        = .exited ["Could not detect default inventory path"] 1
    ∧ playbookMain envC "0.5.3" "1.9.4" noPlaybookNoInventoryNs
        ≠ .exited ["No playbook provided"] 1 :=
  ⟨rfl, rfl, by decide⟩

/-- C1 amended: in playbook mode, when the validation pipeline completes and
no playbook positional was supplied, `run` exits with code 1 and message
`No playbook provided` before building the runner configuration or invoking
the engine; the check runs after `parse_args`, hence after the inventory and
pattern checks. -/
theorem c1_playbook_check_after_pipeline :
    ∀ (env : Env) (rv av : String) (ns : Namespace) (out : List String)
      (p : Parsed),
      parse_args env rv av ns = .ok out p →
      p.ns.playbook = some none →
      playbookMain env rv av ns = .exited (out ++ ["No playbook provided"]) 1
      ∧ (PlaybookScript_run env initialState p).duringCall = none := by
  intro env rv av ns out p hok hpb
  have hrun : PlaybookScript_run env initialState p
      = ⟨none, initialState, .exited ["No playbook provided"] 1⟩ := by
    simp [PlaybookScript_run, hpb]
  refine ⟨?_, by rw [hrun]⟩
  simp [playbookMain, PlaybookScript_init_ok, hok, hrun, prependOut]

/-- C1 witness: a concrete playbook-mode input that passes validation but
has no playbook positional. -/
theorem c1_witness :
    playbookMain envC "0.5.3" "1.9.4" noPlaybookNs
        = .exited ([] ++ ["No playbook provided"]) 1
    ∧ (PlaybookScript_run envC initialState noPlaybookParsed).duringCall
        = none :=
  c1_playbook_check_after_pipeline envC "0.5.3" "1.9.4" noPlaybookNs []
    noPlaybookParsed rfl rfl

/-- C2 counterexample: a playbook run on a fresh script (runner field
absent) invokes the engine while the runner field is still absent — the
adapter binds the runner object to a local variable and never registers it,
so the RunnerHandle is not non-absent while the engine call is in flight. -/
theorem c2_counterexample :
    (PlaybookScript_run envC initialState playbookParsed).duringCall
        = some initialState
    ∧ initialState.runner = none
    ∧ (PlaybookScript_run envC initialState playbookParsed).finalState.runner
        = none :=
  ⟨rfl, rfl, rfl⟩

/-- C2 amended: neither adapter ever assigns the script's runner field: the
state is unchanged on every exit path, so starting from `__init__`'s state
the runner field is absent before, during and after every engine call. -/
theorem c2_runner_never_registered :
    ∀ (env : Env) (p : Parsed),
      (PlaybookScript_run env initialState p).finalState.runner = none
      ∧ ((PlaybookScript_run env initialState p).duringCall = none
         ∨ (PlaybookScript_run env initialState p).duringCall
             = some initialState)
      ∧ (AnsibleScript_run env initialState p).finalState.runner = none
      ∧ ((AnsibleScript_run env initialState p).duringCall = none
         ∨ (AnsibleScript_run env initialState p).duringCall
             = some initialState) := by
  intro env p
  obtain ⟨h1, h2⟩ := PlaybookScript_run_state env initialState p
  obtain ⟨h3, h4⟩ := AnsibleScript_run_state env initialState p
  refine ⟨?_, h2, ?_, h4⟩
  · rw [h1]
    rfl
  · rw [h3]
    rfl

/-- C3: an interrupt while the runner handle is absent exits the process
with code 1 and no message; an interrupt while the handle is present raises
`KeyboardInterrupt` into the in-flight call, which — per the spec-modelled
runner boundary `interruptedEngine` — surfaces as an engine failure, is
translated by the adapter into a `RunnerError` outcome, and makes the
controller print that message and exit 1 (not a separate hard exit). -/
theorem c3_interrupt_handling :
    (∀ st : ScriptState, st.runner = none → SIGINT st = .exitProc 1 none)
    ∧ (∀ st : ScriptState, st.runner.isSome = true →
        SIGINT st = .raiseKeyboardInterrupt)
    ∧ (∀ (env : Env) (st : ScriptState) (p : Parsed) (msg : String),
        env.playbookEngine = interruptedEngine msg →
        (PlaybookScript_run env st p).duringCall.isSome = true →
        (PlaybookScript_run env st p).outcome = .raised [] (.runnerError msg)
        ∧ controller_exit (PlaybookScript_run env st p).outcome
            = ([msg], 1)) := by
  refine ⟨?_, ?_, ?_⟩
  · intro st h
    simp [SIGINT, h]
  · intro st h
    simp [SIGINT, h]
  · intro env st p msg hE hd
    have hout : (PlaybookScript_run env st p).outcome
        = .raised [] (.runnerError msg) := by
      refine PlaybookScript_run_engine env st p
        (fun o => o = .raised [] (.runnerError msg)) (fun cfg => ?_) hd
      rw [hE]
      rfl
    exact ⟨hout, by rw [hout]; rfl⟩

/-- C3 witness: the idle state exits 1 with no message; the running state
raises `KeyboardInterrupt`; a concrete interrupted playbook run yields a
`RunnerError` outcome whose message the controller prints with exit 1. -/
theorem c3_witness :
    SIGINT initialState = .exitProc 1 none
    ∧ SIGINT runningState = .raiseKeyboardInterrupt
    ∧ ((PlaybookScript_run envI initialState playbookParsed).outcome
          = .raised [] (.runnerError "interrupted")
       ∧ controller_exit
           (PlaybookScript_run envI initialState playbookParsed).outcome
          = (["interrupted"], 1)) :=
  ⟨c3_interrupt_handling.1 initialState rfl,
   c3_interrupt_handling.2.1 runningState rfl,
   c3_interrupt_handling.2.2 envI initialState playbookParsed "interrupted"
     rfl rfl⟩

/-- C4: the ad-hoc schema construction fails before any parsing or
validation: `AnsibleScript.add_common_arguments` references
`DEFAULT_become_USER`, which is not among the module's bound names (the
imported constant is `DEFAULT_BECOME_USER`), so `AnsibleScript.__init__`
raises `NameError` and ad-hoc mode never reaches the validation pipeline or
the engine, for every environment and every input. -/
theorem c4_adhoc_init_name_error :
    AnsibleScript_init = .error (.nameError "DEFAULT_become_USER")
    ∧ moduleNames.contains "DEFAULT_BECOME_USER" = true
    ∧ moduleNames.contains "DEFAULT_become_USER" = false
    ∧ (∀ (env : Env) (rv av : String) (ns : Namespace),
        adhocMain env rv av ns
          = .raised [] (.nameError "DEFAULT_become_USER")) := by
  refine ⟨rfl, rfl, rfl, fun env rv av ns => ?_⟩
  have h : AnsibleScript_init = .error (.nameError "DEFAULT_become_USER") := rfl
  simp [adhocMain, h]

/-- C5: the adapter boundary re-raises any engine-level failure
(`AnsibleError`) as a `RunnerError` carrying the same message; under the
spec-modelled engine interface (`engineWellBehaved`: every exception the
engine call raises is an `AnsibleError`) nothing other than a success
payload or a `RunnerError` leaves either adapter's engine call. -/
theorem c5_error_translation :
    (∀ m : String,
      adapterEngineCall (.raises (.ansibleError m))
        = .raised [] (.runnerError m))
    ∧ (∀ (env : Env) (st : ScriptState) (p : Parsed),
        engineWellBehaved env.playbookEngine →
        (PlaybookScript_run env st p).duringCall.isSome = true →
        (∃ r, (PlaybookScript_run env st p).outcome = .ok [] r)
        ∨ (∃ m, (PlaybookScript_run env st p).outcome
              = .raised [] (.runnerError m)))
    ∧ (∀ (env : Env) (st : ScriptState) (p : Parsed),
        engineWellBehaved env.adhocEngine →
        (AnsibleScript_run env st p).duringCall.isSome = true →
        (∃ r, (AnsibleScript_run env st p).outcome = .ok [] r)
        ∨ (∃ m, (AnsibleScript_run env st p).outcome
              = .raised [] (.runnerError m))) := by
  refine ⟨fun m => rfl, ?_, ?_⟩
  · intro env st p hwb hd
    refine PlaybookScript_run_engine env st p
      (fun o => (∃ r, o = .ok [] r) ∨ (∃ m, o = .raised [] (.runnerError m)))
      (fun cfg => ?_) hd
    rcases hE : env.playbookEngine cfg with r | e
    · exact Or.inl ⟨r, rfl⟩
    · obtain ⟨m, hm⟩ := hwb cfg e hE
      subst hm
      exact Or.inr ⟨m, rfl⟩
  · intro env st p hwb hd
    refine AnsibleScript_run_engine env st p
      (fun o => (∃ r, o = .ok [] r) ∨ (∃ m, o = .raised [] (.runnerError m)))
      (fun cfg => ?_) hd
    rcases hE : env.adhocEngine cfg with r | e
    · exact Or.inl ⟨r, rfl⟩
    · obtain ⟨m, hm⟩ := hwb cfg e hE
      subst hm
      exact Or.inr ⟨m, rfl⟩

/-- C5 witness: the translation at a concrete message, and both adapters at
concrete well-behaved engines and concrete inputs that reach the engine. -/
theorem c5_witness :
    adapterEngineCall (.raises (.ansibleError "engine failed"))
        = .raised [] (.runnerError "engine failed")
    ∧ ((∃ r, (PlaybookScript_run envC initialState playbookParsed).outcome
          = .ok [] r)
       ∨ (∃ m, (PlaybookScript_run envC initialState playbookParsed).outcome
          = .raised [] (.runnerError m)))
    ∧ ((∃ r, (AnsibleScript_run envC initialState adhocParsed).outcome
          = .ok [] r)
       ∨ (∃ m, (AnsibleScript_run envC initialState adhocParsed).outcome
          = .raised [] (.runnerError m))) :=
  ⟨c5_error_translation.1 "engine failed",
   c5_error_translation.2.1 envC initialState playbookParsed
     (fun _ _ h => EngineResult.noConfusion h) rfl,
   c5_error_translation.2.2 envC initialState adhocParsed
     (fun _ _ h => EngineResult.noConfusion h) rfl⟩

/-- C6: whenever both the su and become toggles are set, the resolved
privilege mode is the become branch with display prefix `become <user> `,
never su — `resolve_mode` checks become first and the su toggle is ignored —
and any successful pipeline run with the become toggle set records that
prefix as the script mode. -/
theorem c6_become_priority :
    (∀ ns : Namespace, ns.become = true → ns.su = true →
      resolve_mode ns = .ok ("become " ++ ns.become_user ++ " "))
    ∧ (∀ (env : Env) (rv av : String) (ns : Namespace) (out : List String)
        (p : Parsed),
      parse_args env rv av ns = .ok out p → ns.become = true →
      p.mode = "become " ++ ns.become_user ++ " ") := by
  constructor
  · intro ns hb _
    simp [resolve_mode, hb]
  · intro env rv av ns out p h hb
    obtain ⟨-, -, hmode, -⟩ := parse_args_ok_inv env rv av ns out p h
    have hres : resolve_mode ns = .ok ("become " ++ ns.become_user ++ " ") := by
      simp [resolve_mode, hb]
    rw [hres] at hmode
    injection hmode with h1
    exact h1.symm

/-- C6 witness: both toggles set at a concrete input. -/
theorem c6_witness :
    resolve_mode bothTogglesNs
        = .ok ("become " ++ bothTogglesNs.become_user ++ " ")
    ∧ bothTogglesParsed.mode = "become " ++ bothTogglesNs.become_user ++ " " :=
  ⟨c6_become_priority.1 bothTogglesNs rfl rfl,
   c6_become_priority.2 envC "0.5.3" "1.9.4" bothTogglesNs []
     bothTogglesParsed (by decide) rfl⟩

/-- C7: for every input with the version flag set, the pipeline prints
exactly `<tool-version> (ansible <engine-version>)` and exits 0; this holds
for every environment (so no prompt, host listing, vault read or engine
call is consulted) and every namespace, including an unset inventory or an
unmatched host pattern, and the controller never reaches `run`. -/
theorem c7_version_short_circuit :
    ∀ (env : Env) (rv av : String) (ns : Namespace), ns.version = true →
      parse_args env rv av ns = .exited [rv ++ " (ansible " ++ av ++ ")"] 0
      ∧ playbookMain env rv av ns
          = .exited [rv ++ " (ansible " ++ av ++ ")"] 0 := by
  intro env rv av ns h
  have hp : parse_args env rv av ns
      = .exited [rv ++ " (ansible " ++ av ++ ")"] 0 := by
    simp [parse_args, h]
  exact ⟨hp, by simp [playbookMain, PlaybookScript_init_ok, hp]⟩

/-- C7 witness: version flag set together with an unset inventory. -/
theorem c7_witness :
    parse_args envC "0.5.3" "1.9.4" versionNs
        = .exited ["0.5.3" ++ " (ansible " ++ "1.9.4" ++ ")"] 0
    ∧ playbookMain envC "0.5.3" "1.9.4" versionNs
        = .exited ["0.5.3" ++ " (ansible " ++ "1.9.4" ++ ")"] 0 :=
  c7_version_short_circuit envC "0.5.3" "1.9.4" versionNs rfl

/-- C8: for every input without the version flag whose inventory is unset,
the pipeline exits 1 with `Could not detect default inventory path`; this
holds for every environment, so no host-pattern check, credential prompt,
vault read or engine call occurs, and the controller never reaches `run`. -/
theorem c8_inventory_check :
    ∀ (env : Env) (rv av : String) (ns : Namespace),
      ns.version = false → ns.inventory = none →
      parse_args env rv av ns
          = .exited ["Could not detect default inventory path"] 1
      ∧ playbookMain env rv av ns
          = .exited ["Could not detect default inventory path"] 1 := by
  intro env rv av ns hv hi
  have hp : parse_args env rv av ns
      = .exited ["Could not detect default inventory path"] 1 := by
    simp [parse_args, hv, hi]
  exact ⟨hp, by simp [playbookMain, PlaybookScript_init_ok, hp]⟩

/-- C8 witness: a concrete input with an unset inventory. -/
theorem c8_witness :
    parse_args envC "0.5.3" "1.9.4" noInventoryNs
        = .exited ["Could not detect default inventory path"] 1
    ∧ playbookMain envC "0.5.3" "1.9.4" noInventoryNs
        = .exited ["Could not detect default inventory path"] 1 :=
  c8_inventory_check envC "0.5.3" "1.9.4" noInventoryNs rfl rfl

/-- C9: on a namespace declaring a pattern attribute (the ad-hoc schema),
whenever the inventory restricted to the pattern matches zero hosts the
pipeline exits 1 with `No hosts matched` — for every environment, so the
engine is never invoked; on a namespace without a pattern attribute (the
playbook schema declares none) the pipeline never produces this exit. -/
theorem c9_no_hosts_matched :
    (∀ (env : Env) (rv av : String) (ns : Namespace) (inv : String)
        (pat : PatternValue),
      ns.version = false → ns.inventory = some inv → ns.pattern = some pat →
      env.listHosts inv pat = [] →
      parse_args env rv av ns = .exited ["No hosts matched"] 1)
    ∧ (∀ (env : Env) (rv av : String) (ns : Namespace),
      ns.pattern = none →
      parse_args env rv av ns ≠ .exited ["No hosts matched"] 1) := by
  constructor
  · intro env rv av ns inv pat hv hi hp hl
    simp [parse_args, hv, hi, hp, hl]
  · intro env rv av ns hp
    by_cases hv : ns.version = true
    · simp [parse_args, hv]
    · rcases hi : ns.inventory with _ | inv
      · simp [parse_args, hv, hi]
      · rcases hm : resolve_mode ns with e | mode
        · simp [parse_args, hv, hi, hp, hm]
        · rcases hvf : ns.vault_password_file with _ | v
          · simp [parse_args, hv, hi, hp, hm, hvf]
          · simp [parse_args, hv, hi, hp, hm, hvf]

/-- C9 witness: pattern `c` against hosts `a`, `b` exits 1 with
`No hosts matched`; the playbook-shaped namespace never produces it. -/
theorem c9_witness :
    parse_args envC "0.5.3" "1.9.4" unmatchedNs = .exited ["No hosts matched"] 1
    ∧ parse_args envC "0.5.3" "1.9.4" playbookNs
        ≠ .exited ["No hosts matched"] 1 :=
  ⟨c9_no_hosts_matched.1 envC "0.5.3" "1.9.4" unmatchedNs "/etc/ansible/hosts"
     (.ofString "c") rfl rfl rfl rfl,
   c9_no_hosts_matched.2 envC "0.5.3" "1.9.4" playbookNs rfl⟩

/-- C10 counterexample: on an ad-hoc-shaped namespace (whose schema declares
no `--vault-password-file`) with neither ask-flag set, VaultSecret does not
resolve to `false`: the pipeline raises `AttributeError` at the vault step,
so the claim's "in either mode" fails for ad-hoc mode. -/
theorem c10_counterexample :
    adhocNs.vault_password_file = none
    ∧ adhocNs.ask_pass = false
    ∧ adhocNs.ask_become_pass = false
    ∧ parse_args envC "0.5.3" "1.9.4" adhocNs
        = .raised [] (.attributeError "vault_password_file") :=
  ⟨rfl, rfl, rfl, rfl⟩

/-- C10 amended: whenever the pipeline returns a config — possible only when
the namespace carries the `vault_password_file` attribute, i.e. the playbook
schema — an unset ask-pass flag yields an absent remote password (`None`,
not empty), an unset ask-become-pass flag yields an absent become password,
and a `None` vault-password-file yields VaultSecret `false`; on a namespace
without the attribute (ad-hoc schema) the pipeline never returns a config. -/
theorem c10_credential_resolution :
    (∀ (env : Env) (rv av : String) (ns : Namespace) (out : List String)
        (p : Parsed),
      parse_args env rv av ns = .ok out p →
        (ns.ask_pass = false → p.remote_pass = none)
        ∧ (ns.ask_become_pass = false → p.become_pass = none)
        ∧ (ns.vault_password_file = some none → p.vault_pass = .falseVal))
    ∧ (∀ (env : Env) (rv av : String) (ns : Namespace) (out : List String)
        (p : Parsed),
      ns.vault_password_file = none →
      parse_args env rv av ns ≠ .ok out p) := by
  constructor
  · intro env rv av ns out p h
    obtain ⟨-, -, -, hrp, hbp, v, hv, hvp⟩ :=
      parse_args_ok_inv env rv av ns out p h
    refine ⟨fun ha => ?_, fun ha => ?_, fun hvf => ?_⟩
    · rw [hrp]
      simp [ha]
    · rw [hbp]
      simp [ha]
    · rw [hvf] at hv
      injection hv with hv
      subst hv
      simpa using hvp
  · intro env rv av ns out p hvf h
    obtain ⟨-, -, -, -, -, v, hv, -⟩ := parse_args_ok_inv env rv av ns out p h
    rw [hvf] at hv
    exact Option.noConfusion hv

/-- C10 witness: playbook-shaped input with no ask-flags and a `None`
vault-password-file resolves to absent passwords and VaultSecret `false`;
the ad-hoc-shaped input never yields that parse result. -/
theorem c10_witness :
    ((playbookNs.ask_pass = false → playbookParsed.remote_pass = none)
     ∧ (playbookNs.ask_become_pass = false → playbookParsed.become_pass = none)
     ∧ (playbookNs.vault_password_file = some none →
        playbookParsed.vault_pass = .falseVal))
    ∧ parse_args envC "0.5.3" "1.9.4" adhocNs ≠ .ok [] adhocParsed :=
  ⟨c10_credential_resolution.1 envC "0.5.3" "1.9.4" playbookNs []
     playbookParsed rfl,
   c10_credential_resolution.2 envC "0.5.3" "1.9.4" adhocNs [] adhocParsed rfl⟩

end AnsibleReporter
